import Mathlib

/-!
Verification development for the EvoAgent-Network decision core
(`src/haes`): the hybrid router (`router/hybrid_router.py`), the
evolution engine (`evolution/evolution_engine.py`), the spec-driven
planner (`planner/__init__.py`) and the routing part of
`HybridAISystem.chat` (`system.py`).

Embedding conventions:
* Python `float` scores are modelled as `ℚ`; every constant occurring in
  the code (0.15, 0.2, 0.3, 0.5, 0.8 …) is exactly representable, and on
  these values float and rational arithmetic agree for all comparisons
  performed by the code.
* Python `str` is modelled as `String`; all scanning is done over
  `String.data` (Unicode code points), matching Python string indexing.
* Python dicts (which preserve insertion order) are modelled as
  insertion-ordered association lists; Python `set` is modelled as a
  duplicate-free `List` (membership is what the code observes; a
  concrete iteration order stands in for CPython's unspecified one).
* External collaborators (keyword matcher table, skill store search,
  the LLM client) are parameters of the embedded functions; the wall
  clock (`datetime.now()`) is passed in as an explicit string.
* Raising a Python exception is modelled with `Except` / an explicit
  "raised" flag.
-/

namespace Haes

/-! ### Python string primitives -/

/-- `str.lower()` restricted to ASCII case folding; the queries and
keyword tables of this repository contain only ASCII letters and Korean
characters, on which Python's `lower` acts the same way. -/
def pyLower (s : String) : String := ⟨s.data.map Char.toLower⟩

/-- Python's `needle in hay` substring test (over code points). -/
def containsSub (hay needle : String) : Bool :=
  (List.range (hay.data.length + 1)).any
    (fun i => needle.data.isPrefixOf (hay.data.drop i))

/-- Non-overlapping occurrence count, as Python's `str.count`:
scan left to right, skipping past each match.  The fuel argument is the
length of the remaining haystack, which bounds the recursion. -/
def countOccAux (needle : List Char) : Nat → List Char → Nat
  | 0, _ => 0
  | _, [] => 0
  | fuel + 1, c :: rest =>
      if needle.isPrefixOf (c :: rest) then
        countOccAux needle fuel ((c :: rest).drop (max needle.length 1)) + 1
      else
        countOccAux needle fuel rest

/-- Python `hay.count(needle)` for a non-empty `needle`. -/
def countOcc (hay needle : String) : Nat :=
  countOccAux needle.data hay.data.length hay.data

/-- Does `l` end with `suffix`? (`List.isSuffixOf`, made explicit). -/
def listEndsWith (l suffix : List Char) : Bool :=
  suffix.reverse.isPrefixOf l.reverse

/-- `re.search(pat ++ "$", s)`: in Python, `$` matches at the end of the
string or just before a trailing newline. -/
def endAnchored (s pat : String) : Bool :=
  listEndsWith s.data pat.data ||
    (match s.data.reverse with
     | '\n' :: rest => listEndsWith rest.reverse pat.data
     | _ => false)

/-- `re.search(core ++ "\??$", s)`: `core` with an optional literal `?`
before the end anchor. -/
def endAnchoredOptQ (s core : String) : Bool :=
  endAnchored s core || endAnchored s (core ++ "?")

end Haes

namespace HybridRouter

open Haes

/-- `ExecutionMode` (models/routing.py). -/
inductive ExecutionMode where
  | skill_only
  | skill_agent
  | parallel
  | multi_agent
deriving DecidableEq

/-- The Python `ExecutionMode(value)` enum constructor: `none` models the
`ValueError` raised on an unknown value string. -/
def ExecutionMode.ofString : String → Option ExecutionMode
  | "skill_only" => some .skill_only
  | "skill_agent" => some .skill_agent
  | "parallel" => some .parallel
  | "multi_agent" => some .multi_agent
  | _ => none

/-- `ComplexityAnalysis` (models/routing.py); `indicators` keeps the
insertion order of `COMPLEXITY_INDICATORS`. -/
structure ComplexityAnalysis where
  score : ℚ
  is_parallel : Bool
  is_collaborative : Bool
  indicators : List (String × Nat)
deriving DecidableEq

/-- `RoutingDecision` (models/routing.py). -/
structure RoutingDecision where
  mode : ExecutionMode
  skills : List String
  agents : List String
  reason : String
  confidence : ℚ
  complexity : Option ComplexityAnalysis
deriving DecidableEq

/-- `HybridRouter.COMPLEXITY_INDICATORS`. -/
def COMPLEXITY_INDICATORS : List (String × List String) :=
  [("implementation",
    ["구현", "implement", "만들어", "작성", "build", "create", "개발",
     "develop", "코드"]),
   ("parallel",
    ["그리고", "하고", "and", "또한", "동시에", "병렬로"]),
   ("collaboration",
    ["검토", "review", "확인", "validate", "후에", "다음에", "then"]),
   ("design",
    ["설계", "design", "아키텍처", "architecture", "구조"])]

/-- `any(re.search(p, query_lower) for p in HybridRouter.SIMPLE_PATTERNS)`,
with each of the seven regexes expanded (`$` per Python semantics,
`\??` an optional question mark, the unanchored patterns plain
substring searches). -/
def matchesSimplePattern (query_lower : String) : Bool :=
  endAnchoredOptQ query_lower "뭐야" ||
  endAnchoredOptQ query_lower "뭔가요" ||
  containsSub query_lower "what is" ||
  endAnchored query_lower "알려줘" ||
  endAnchored query_lower "설명해줘" ||
  containsSub query_lower "explain" ||
  containsSub query_lower "tell me"

/-- `HybridRouter.LLM_ROUTING_THRESHOLD`. -/
def LLM_ROUTING_THRESHOLD : ℚ := 1/2

/-- `HybridRouter._analyze_complexity`. -/
def analyze_complexity (query : String) : ComplexityAnalysis :=
  let query_lower := pyLower query
  let is_simple := matchesSimplePattern query_lower
  let indicators := COMPLEXITY_INDICATORS.map
    (fun ck => (ck.1, ck.2.countP (fun kw => containsSub query_lower kw)))
  let total_score0 : ℚ :=
    (indicators.map (fun x => (x.2 : ℚ) * (15/100))).sum
  let parallel_count :=
    countOcc query_lower "하고" + countOcc query_lower "그리고" +
      countOcc query_lower " and "
  let is_parallel : Bool := parallel_count ≥ 2
  let collab_count :=
    (["검토", "review", "확인", "validate", "후에", "다음에", "then"]).countP
      (fun kw => containsSub query_lower kw)
  let is_collaborative : Bool :=
    collab_count ≥ 1 && ((indicators.lookup "design").getD 0 > 0)
  let total_score1 :=
    if (indicators.lookup "implementation").getD 0 > 0 then
      total_score0 + 2/10 else total_score0
  let total_score2 :=
    if is_parallel then total_score1 + 3/10 else total_score1
  let total_score3 :=
    if is_collaborative then total_score2 + 3/10 else total_score2
  let total_score4 :=
    if is_simple && !is_parallel && !is_collaborative then
      min total_score3 (25/100) else total_score3
  let total_score5 := min total_score4 1
  { score := total_score5
    is_parallel := is_parallel
    is_collaborative := is_collaborative
    indicators := indicators }

/-- Fixed two-decimal rendering of a score, as Python's `f"{x:.2f}"`.
Every score formatted by the router is an exact multiple of `1/20` in
`[0, 1]`, for which float formatting and this exact rendering agree. -/
def fmt2 (q : ℚ) : String :=
  let cents := (q * 100).floor.toNat
  toString (cents / 100) ++ "." ++
    (if cents % 100 < 10 then "0" ++ toString (cents % 100)
     else toString (cents % 100))

/-- `HybridRouter._select_agents_for_parallel`. -/
def select_agents_for_parallel (query : String) : List String :=
  let query_lower := Haes.pyLower query
  let agent_keywords : List (String × List String) :=
    [("backend-developer", ["api", "backend", "서버", "데이터베이스"]),
     ("frontend-developer", ["ui", "frontend", "프론트"]),
     ("qa-expert", ["test", "테스트", "qa", "검증"]),
     ("tech-writer", ["문서", "doc", "documentation"]),
     ("devops-engineer", ["배포", "deploy", "ci/cd"])]
  let agents := (agent_keywords.filter
    (fun ak => ak.2.any (fun kw => Haes.containsSub query_lower kw))).map
      Prod.fst
  let agents :=
    if agents.length < 2 then ["backend-developer", "qa-expert", "tech-writer"]
    else agents
  agents.take 4

/-- `HybridRouter._select_agents_for_collaboration`. -/
def select_agents_for_collaboration (query : String) : List String :=
  let query_lower := Haes.pyLower query
  if Haes.containsSub query_lower "설계" && Haes.containsSub query_lower "검토" then
    ["system-architect", "security-reviewer"]
  else if Haes.containsSub query_lower "구현" && Haes.containsSub query_lower "테스트" then
    ["backend-developer", "qa-expert"]
  else
    ["system-architect", "backend-developer"]

/-- `HybridRouter._select_primary_agent`. -/
def select_primary_agent (query : String) : List String :=
  let query_lower := Haes.pyLower query
  if (["api", "backend", "서버", "서빙"]).any
      (fun kw => Haes.containsSub query_lower kw) then
    ["backend-developer"]
  else if (["ui", "frontend", "프론트"]).any
      (fun kw => Haes.containsSub query_lower kw) then
    ["frontend-developer"]
  else if (["ml", "ai", "모델", "학습"]).any
      (fun kw => Haes.containsSub query_lower kw) then
    ["ml-engineer"]
  else
    ["backend-developer"]

/-- `HybridRouter._decide_mode` (the `skills` argument is accepted but,
as in the source, unused). -/
def decide_mode (query : String) (complexity : ComplexityAnalysis)
    (skills : List String) : ExecutionMode × List String × String :=
  let _ := skills
  if complexity.is_parallel then
    let agents := select_agents_for_parallel query
    (.parallel, agents,
      "병렬 실행 가능한 " ++ toString agents.length ++ "개 독립 작업 감지")
  else if complexity.is_collaborative then
    (.multi_agent, select_agents_for_collaboration query,
      "순차적 협업이 필요한 작업")
  else if complexity.score ≥ 3/10 then
    (.skill_agent, select_primary_agent query,
      "기술적 구현 작업 (복잡도: " ++ fmt2 complexity.score ++ ")")
  else
    (.skill_only, [],
      "단순 지식 조회 (복잡도: " ++ fmt2 complexity.score ++ ")")

/-- `HybridRouter._calculate_confidence`. -/
def calculate_confidence (skills : List String)
    (complexity : ComplexityAnalysis) : ℚ :=
  let confidence : ℚ := 1/2
  let confidence := if skills ≠ [] then confidence + 2/10 else confidence
  let confidence :=
    if (complexity.indicators.map Prod.snd).any (· ≠ 0) then
      confidence + 1/10 else confidence
  let confidence :=
    if complexity.is_parallel || complexity.is_collaborative then
      confidence + 1/10 else confidence
  min confidence 1

/-! The LLM routing collaborator (`openai_client.route`), abstracted as
an external function of the query.  A reply dict is modelled field by
field; `Option` distinguishes an absent key from a present one, so the
Python truthiness test `if llm_decision:` and the `.get` defaults can be
expressed.  `raises` covers any exception from
`skill_store.get_compressed_index()` or `llm_client.route(...)`. -/

/-- The parsed reply dict of the LLM routing collaborator. -/
structure LLMRouteReply where
  mode : Option String
  skills : Option (List String)
  agents : Option (List String)
  reason : Option String
  /-- whether the dict has any further keys (only its truthiness is
  observed by the router). -/
  otherKeys : Bool
deriving DecidableEq

/-- Python truthiness of the reply dict (`if llm_decision:`). -/
def LLMRouteReply.truthy (r : LLMRouteReply) : Bool :=
  r.mode.isSome || r.skills.isSome || r.agents.isSome || r.reason.isSome ||
    r.otherKeys

/-- Outcome of one call to the external LLM routing collaborator. -/
inductive LLMResult where
  | raises
  | ret (r : LLMRouteReply)

/-- An LLM client, reduced to the one method the router calls. -/
def LLMClient : Type := String → LLMResult

/-- `HybridRouter._llm_route`: returns the reply dict, or `none` when no
client is configured or the call raised (the exception is caught). -/
def llm_route (llm_client : Option LLMClient) (query : String) :
    Option LLMRouteReply :=
  match llm_client with
  | none => none
  | some f =>
    match f query with
    | .raises => none
    | .ret r => some r

/-- The `ValueError` that `ExecutionMode(...)` raises on an unknown mode
string, propagating out of `route`. -/
inductive RouteError where
  | valueError
deriving DecidableEq

/-- Step 5 of `HybridRouter.route` (source lines 98–128): the LLM
routing fallback, factored out with the results of steps 1–4 as
arguments exactly as the code has them in scope at that point. -/
def route_fallback (query : String) (llm_client : Option LLMClient)
    (complexity : ComplexityAnalysis) (matched_skills : List String)
    (mode : ExecutionMode) (agents : List String) (reason : String)
    (confidence : ℚ) : Except RouteError RoutingDecision :=
  let keyword_decision : RoutingDecision :=
    { mode := mode, skills := matched_skills, agents := agents,
      reason := reason, confidence := confidence,
      complexity := some complexity }
  if confidence < LLM_ROUTING_THRESHOLD ∧ llm_client.isSome then
    match llm_route llm_client query with
    | some llm_decision =>
      if llm_decision.truthy ∧ llm_decision.reason ≠ some "Parse error" then
        match ExecutionMode.ofString (llm_decision.mode.getD "skill_only") with
        | none => .error .valueError
        | some m =>
          let llm_skills := llm_decision.skills.getD []
          let final_skills :=
            if llm_skills ≠ [] then llm_skills else matched_skills
          .ok { mode := m, skills := final_skills,
                agents := llm_decision.agents.getD agents,
                reason := "LLM 라우팅: " ++ (llm_decision.reason.getD ""),
                confidence := 8/10,
                complexity := some complexity }
      else
        .ok keyword_decision
    | none => .ok keyword_decision
  else
    .ok keyword_decision

/-- `HybridRouter.route`.  The keyword matcher
(`KeywordMatcher.match_skill_ids` with its static table, `max_results=3`)
and the skill-store similarity fallback (`skill_store.search`, an
external collaborator) are parameters: no claim depends on the contents
of either table, only on how `route` combines their output. -/
def route (matcher store_search : String → List String)
    (llm_client : Option LLMClient) (query : String) :
    Except RouteError RoutingDecision :=
  let complexity := analyze_complexity query
  let matched0 := matcher query
  let matched_skills := if matched0 = [] then store_search query else matched0
  let mar := decide_mode query complexity matched_skills
  let confidence := calculate_confidence matched_skills complexity
  route_fallback query llm_client complexity matched_skills
    mar.1 mar.2.1 mar.2.2 confidence

end HybridRouter

namespace EvolutionEngine

/-! Python `set` objects are modelled as duplicate-free lists; `dict`
objects (insertion-ordered in CPython) as association lists. -/

/-- `set(l)` / `list(set(l))`: one admissible iteration order of the
resulting set (CPython's is unspecified). -/
def pySet (l : List String) : List String := l.dedup

/-- `a.update(b)` / `a | b` on sets. -/
def setUnion (a b : List String) : List String := (a ++ b).dedup

/-- `a & b` on sets. -/
def setInter (a b : List String) : List String :=
  (a.filter (· ∈ b)).dedup

/-- `sorted(l)` on strings (code-point lexicographic, as Python). -/
def pySorted (l : List String) : List String := l.insertionSort (· ≤ ·)

/-- `d[k] = f(d.get(k, default))` on an insertion-ordered dict: update in
place when the key exists (keys are unique in every dict this file
models), else append the new binding. -/
def updateAssoc {α : Type} : List (String × α) → String → (α → α) → α →
    List (String × α)
  | [], k, f, d => [(k, f d)]
  | p :: rest, k, f, d =>
    if p.1 = k then (p.1, f p.2) :: rest
    else p :: updateAssoc rest k f d

/-- The fields of `haes.models.execution.ExecutionResult` that
`record_feedback` reads. -/
structure ExecutionResult where
  query : String
  mode : String
  skills_used : List String
  agents_used : List String
deriving DecidableEq

/-- One entry of `EvolutionEngine.feedback_db`. -/
structure FeedbackRecord where
  timestamp : String
  query : String
  mode : String
  skills_used : List String
  agents_used : List String
  feedback : String
  score : Int
deriving DecidableEq

/-- One value of `EvolutionEngine.routing_stats`. -/
structure SkillStats where
  total : Nat
  success : Nat
  scores : List Int
  modes : List (String × Nat)
deriving DecidableEq

/-- One buffered sample of `EvolutionEngine._query_patterns`. -/
structure Sample where
  query : String
  keywords : List String
  score : Int
  mode : String
  agents : List String
deriving DecidableEq

/-- One entry of `EvolutionEngine.learned_patterns`. -/
structure Pattern where
  pattern_key : String
  skills : List String
  mode : String
  agents : List String
  query_keywords : List String
  sample_count : Nat
  success_rate : ℚ
  success_scores : List Int
  learned_at : String
deriving DecidableEq

/-- The mutable state of an `EvolutionEngine` instance. -/
structure EngineState where
  feedback_db : List FeedbackRecord
  routing_stats : List (String × SkillStats)
  learned_patterns : List Pattern
  query_patterns : List (String × List Sample)
  auto_save : Bool
  dirty : Bool
deriving DecidableEq

/-- `EvolutionEngine.LEARNING_THRESHOLD`. -/
def LEARNING_THRESHOLD : Nat := 5

/-- `EvolutionEngine.SUCCESS_SCORE`. -/
def SUCCESS_SCORE : Int := 4

/-- `EvolutionEngine._extract_keywords`: `re.findall(r"\w+", lower)`,
drop stop words and one-character words, collect into a set.  `\w` is
modelled for the character classes occurring in this repository (ASCII
alphanumerics, underscore, Hangul syllables). -/
def isWordChar (c : Char) : Bool :=
  c.isAlphanum || c = '_' || (0xAC00 ≤ c.toNat && c.toNat ≤ 0xD7A3)

/-- `EvolutionEngine._extract_keywords`. -/
def extract_keywords (query : String) : List String :=
  let words := (((Haes.pyLower query).data.splitOnP
      (fun c => !isWordChar c)).filter (· ≠ [])).map
        (fun l => (⟨l⟩ : String))
  let stopwords : List String :=
    ["을", "를", "이", "가", "은", "는", "에", "의", "로", "해", "해줘",
     "알려줘", "방법", "뭐"]
  pySet (words.filter (fun w => w.length > 1 && !(stopwords.contains w)))

/-- `EvolutionEngine._update_routing_stats`. -/
def update_routing_stats (record : FeedbackRecord)
    (routing_stats : List (String × SkillStats)) :
    List (String × SkillStats) :=
  let is_success := record.score ≥ SUCCESS_SCORE
  record.skills_used.foldl
    (fun st skill_id =>
      updateAssoc st skill_id
        (fun s =>
          { total := s.total + 1
            success := if is_success then s.success + 1 else s.success
            scores := s.scores ++ [record.score]
            modes := updateAssoc s.modes record.mode (· + 1) 0 })
        { total := 0, success := 0, scores := [], modes := [] })
    routing_stats

/-- Update the first pattern carrying the given key, in place (the
linear search of `_learn_success_pattern`). -/
def updateFirstPattern (key : String) (f : Pattern → Pattern) :
    List Pattern → List Pattern
  | [] => []
  | p :: rest =>
    if p.pattern_key = key then f p :: rest
    else p :: updateFirstPattern key f rest

/-- `EvolutionEngine._create_learned_pattern`.  Only reached with at
least `LEARNING_THRESHOLD` buffered samples, so the success-rate
division is never by zero. -/
def create_learned_pattern (pattern_key : String) (skills : List String)
    (mode : String) (now : String) (s : EngineState) : EngineState :=
  let samples := (s.query_patterns.lookup pattern_key).getD []
  let all_keywords := samples.foldl
    (fun acc smp => setUnion acc smp.keywords) []
  let all_scores := samples.map (·.score)
  let agents := samples.foldl
    (fun acc smp => if smp.agents ≠ [] then acc ++ smp.agents else acc) []
  let success_count := (all_scores.filter (· ≥ SUCCESS_SCORE)).length
  let success_rate : ℚ := (success_count : ℚ) / (all_scores.length : ℚ)
  if success_rate ≥ 8/10 then
    { s with learned_patterns := s.learned_patterns ++
        [{ pattern_key := pattern_key, skills := skills, mode := mode,
           agents := pySet agents, query_keywords := all_keywords,
           sample_count := samples.length, success_rate := success_rate,
           success_scores := all_scores, learned_at := now }] }
  else s

/-- `EvolutionEngine._learn_success_pattern`. -/
def learn_success_pattern (record : FeedbackRecord) (now : String)
    (s : EngineState) : EngineState :=
  let query_keywords := extract_keywords record.query
  let pattern_key := String.intercalate "|" (pySorted record.skills_used)
  if s.learned_patterns.any (·.pattern_key = pattern_key) then
    { s with learned_patterns :=
        (updateFirstPattern pattern_key
          (fun p =>
            { p with sample_count := p.sample_count + 1,
                     query_keywords := setUnion p.query_keywords query_keywords,
                     success_scores := p.success_scores ++ [record.score] })
          s.learned_patterns) }
  else
    let sample : Sample :=
      { query := record.query, keywords := query_keywords,
        score := record.score, mode := record.mode,
        agents := record.agents_used }
    let s1 := { s with query_patterns :=
        (updateAssoc s.query_patterns pattern_key (· ++ [sample]) []) }
    if ((s1.query_patterns.lookup pattern_key).getD []).length ≥
        LEARNING_THRESHOLD then
      create_learned_pattern pattern_key record.skills_used record.mode now s1
    else s1

/-- The review suggestion returned by
`EvolutionEngine._trigger_improvement`. -/
structure Improvement where
  action : String
  needs_review : Bool
  query : String
  skills_used : List String
  score : Int
  suggestion : String
deriving DecidableEq

/-- `EvolutionEngine._trigger_improvement`. -/
def trigger_improvement (record : FeedbackRecord) : Improvement :=
  { action := "review", needs_review := true, query := record.query,
    skills_used := record.skills_used, score := record.score,
    suggestion := "Consider reviewing SKILL content or routing logic" }

/-- An entry of the persisted `learned_patterns` list: `bad` models a
non-dict entry, on which `pattern.copy()` raises. -/
inductive RawPattern where
  | ok (p : Pattern)
  | bad
deriving DecidableEq

/-- An entry of a persisted pending-sample list, `bad` as above. -/
inductive RawSample where
  | ok (s : Sample)
  | bad
deriving DecidableEq

/-- The top-level persisted record, as read back from disk (`Option`
distinguishes an absent key, for which `_deserialize_state` substitutes
its `.get` default). -/
structure RawDict where
  version : Option String
  saved_at : Option String
  feedback_db : Option (List FeedbackRecord)
  routing_stats : Option (List (String × SkillStats))
  learned_patterns : Option (List RawPattern)
  query_patterns : Option (List (String × List RawSample))
deriving DecidableEq

/-- `EvolutionEngine._serialize_state` (the keyword sets are already
lists in this model, so the set→list conversion is the identity; the
derived `stats` summary block is write-only and omitted). -/
def serialize_state (now : String) (s : EngineState) : RawDict :=
  { version := some "1.0", saved_at := some now,
    feedback_db := some s.feedback_db,
    routing_stats := some s.routing_stats,
    learned_patterns := some (s.learned_patterns.map .ok),
    query_patterns := some (s.query_patterns.map
      (fun kp => (kp.1, kp.2.map .ok))) }

/-- The `learned_patterns` restore loop of `_deserialize_state`: convert
entries in order; a `bad` entry raises, keeping the prefix already
appended.  Returns the rebuilt list and the raised flag. -/
def deserPatterns : List RawPattern → List Pattern × Bool
  | [] => ([], false)
  | .ok p :: rest =>
    let pr := deserPatterns rest
    ({ p with query_keywords := pySet p.query_keywords } :: pr.1, pr.2)
  | .bad :: _ => ([], true)

/-- The per-key sample restore loop of `_deserialize_state`. -/
def deserSamples : List RawSample → List Sample × Bool
  | [] => ([], false)
  | .ok smp :: rest =>
    let sr := deserSamples rest
    ({ smp with keywords := pySet smp.keywords } :: sr.1, sr.2)
  | .bad :: _ => ([], true)

/-- The `query_patterns` restore loop of `_deserialize_state`: keys in
order; a raise while converting one key's samples keeps that key's
partial list and abandons the rest. -/
def deserQueryPatterns :
    List (String × List RawSample) → List (String × List Sample) × Bool
  | [] => ([], false)
  | (k, smps) :: rest =>
    let sr := deserSamples smps
    if sr.2 then ([(k, sr.1)], true)
    else
      let qr := deserQueryPatterns rest
      ((k, sr.1) :: qr.1, qr.2)

/-- `EvolutionEngine._deserialize_state`: field assignments in source
order; the returned flag records whether an exception was raised
mid-way (leaving the assignments made so far in place). -/
def deserialize_state (d : RawDict) (s : EngineState) :
    EngineState × Bool :=
  let s1 := { s with feedback_db := d.feedback_db.getD [] }
  let s2 := { s1 with routing_stats := d.routing_stats.getD [] }
  let pr := deserPatterns (d.learned_patterns.getD [])
  let s3 := { s2 with learned_patterns := pr.1 }
  if pr.2 then (s3, true)
  else
    let qr := deserQueryPatterns (d.query_patterns.getD [])
    let s4 := { s3 with query_patterns := qr.1 }
    if qr.2 then (s4, true)
    else ({ s4 with dirty := false }, false)

/-- What `load` finds at the resolved path. -/
inductive FileContent where
  | missing
  | unparseable
  | notDict
  | dict (d : RawDict)

/-- `EvolutionEngine.load`: `missing` covers both the no-default-file
and the explicit-path-not-found early returns; `unparseable` a raising
`json.load`/`yaml.safe_load`; `notDict` a parse result that is not a
dict (the first `data.get` raises before any assignment).  Every
exception is caught and turned into a `false` return. -/
def load (file : FileContent) (s : EngineState) : EngineState × Bool :=
  match file with
  | .missing => (s, false)
  | .unparseable => (s, false)
  | .notDict => (s, false)
  | .dict d =>
    let dr := deserialize_state d s
    if dr.2 then (dr.1, false) else (dr.1, true)

/-- `EvolutionEngine.save` with a successful file write: produces the
serialized record and clears the dirty flag. -/
def save (now : String) (s : EngineState) : FileContent × EngineState :=
  (.dict (serialize_state now s), { s with dirty := false })

/-- `EvolutionEngine.restore_from_backup` (delegates to `load`). -/
def restore_from_backup (file : FileContent) (s : EngineState) :
    EngineState × Bool :=
  load file s

/-- `EvolutionEngine.clear`. -/
def clear (s : EngineState) : EngineState :=
  { s with feedback_db := [], routing_stats := [],
           learned_patterns := [], query_patterns := [] }

/-- `EvolutionEngine.record_feedback`.  Returns the new state, the
optional improvement suggestion, and whether the auto-save `save()` was
invoked. -/
def record_feedback (s : EngineState) (result : ExecutionResult)
    (feedback : String) (score : Int) (now : String) :
    EngineState × Option Improvement × Bool :=
  let record : FeedbackRecord :=
    { timestamp := now, query := result.query, mode := result.mode,
      skills_used := result.skills_used, agents_used := result.agents_used,
      feedback := feedback, score := score }
  let s1 := { s with feedback_db := s.feedback_db ++ [record] }
  let s2 := { s1 with routing_stats :=
      update_routing_stats record s1.routing_stats }
  let s3 := if score ≥ SUCCESS_SCORE then learn_success_pattern record now s2
            else s2
  if score ≤ 2 then (s3, some (trigger_improvement record), false)
  else
    let s4 := { s3 with dirty := true }
    if s4.auto_save then ((save now s4).2, none, true)
    else (s4, none, false)

/-- The hint record returned by `EvolutionEngine.get_routing_hints`. -/
structure RoutingHints where
  confidence : ℚ
  suggested_skills : List String
  suggested_mode : Option String
  suggested_agents : List String
  matched_pattern : Option String
deriving DecidableEq

/-- The all-zero hint. -/
def zeroHints : RoutingHints :=
  { confidence := 0, suggested_skills := [], suggested_mode := none,
    suggested_agents := [], matched_pattern := none }

/-- `EvolutionEngine.get_routing_hints`. -/
def get_routing_hints (s : EngineState) (query : String) : RoutingHints :=
  if s.learned_patterns = [] then zeroHints
  else
    let query_keywords := extract_keywords query
    let best := s.learned_patterns.foldl
      (fun (acc : Option Pattern × ℚ) p =>
        if p.query_keywords = [] then acc
        else
          let common := setInter query_keywords p.query_keywords
          if common = [] then acc
          else
            let similarity : ℚ := (common.length : ℚ) /
              ((setUnion query_keywords p.query_keywords).length : ℚ)
            let weighted := similarity * p.success_rate
            if weighted > acc.2 then (some p, weighted) else acc)
      (none, 0)
    match best.1 with
    | some bm =>
      if best.2 > 3/10 then
        { confidence := min (best.2 * (3/2)) (95/100)
          suggested_skills := bm.skills
          suggested_mode := some bm.mode
          suggested_agents := bm.agents
          matched_pattern := some bm.pattern_key }
      else zeroHints
    | none => zeroHints

end EvolutionEngine

namespace HybridAISystem

open HybridRouter EvolutionEngine

/-- The mode resolution of the hint fast path in `HybridAISystem.chat`:
`ExecutionMode(hints["suggested_mode"]) if hints["suggested_mode"] else
ExecutionMode.SKILL_ONLY` — an empty or absent suggested mode is falsy
and falls back to `SKILL_ONLY`; an unknown mode string raises
(`none`). -/
def resolve_hint_mode (m? : Option String) : Option ExecutionMode :=
  match m? with
  | none => some ExecutionMode.skill_only
  | some ms =>
    if ms = "" then some ExecutionMode.skill_only
    else ExecutionMode.ofString ms

/-- Steps 1–2 of `HybridAISystem.chat` (system.py lines 131–147): the
routing decision, consulting the evolution hint before the router
runs. -/
def chat_routing (evo : EngineState)
    (matcher store_search : String → List String)
    (llm_client : Option LLMClient) (query : String) :
    Except RouteError RoutingDecision :=
  let hints := get_routing_hints evo query
  if hints.confidence > 8/10 then
    match resolve_hint_mode hints.suggested_mode with
    | none => .error .valueError
    | some m =>
      .ok { mode := m, skills := hints.suggested_skills,
            agents := hints.suggested_agents,
            reason := "학습된 패턴 사용 (신뢰도: " ++
              fmt2 hints.confidence ++ ")",
            confidence := hints.confidence, complexity := none }
  else
    route matcher store_search llm_client query

end HybridAISystem

namespace SpecDrivenPlanner

/-- `WorkflowType` (planner). -/
inductive WorkflowType where
  | simple_query
  | skill_lookup
  | single_task
  | sequential
  | parallel
  | spec_driven
deriving DecidableEq

/-- `TaskStatus` (planner). -/
inductive TaskStatus where
  | pending
  | in_progress
  | completed
  | blocked
  | failed
deriving DecidableEq

/-- `TaskCategory` (planner). -/
inductive TaskCategory where
  | investigation
  | implementation
  | refactoring
  | testing
  | documentation
  | decision
  | research
deriving DecidableEq

/-- The planner `Task` dataclass (dataclass equality is field-wise, as
derived here). -/
structure Task where
  id : String
  title : String
  description : String
  category : TaskCategory
  status : TaskStatus := .pending
  agent_id : Option String := none
  skill_ids : List String := []
  dependencies : List String := []
  blocked_by : List String := []
  estimated_minutes : Nat := 15
  priority : Nat := 1
  output : Option String := none
deriving DecidableEq

/-- The planner `Phase` dataclass. -/
structure Phase where
  id : String
  name : String
  description : String
  tasks : List Task := []
  dependencies : List String := []
deriving DecidableEq

/-- `SpecDrivenPlanner._create_phases`. -/
def create_phases (tasks : List Task) (workflow : WorkflowType) :
    List Phase :=
  if workflow = .simple_query then
    [{ id := "phase-1", name := "즉시 응답", description := "단순 질문 처리",
       tasks := tasks }]
  else if workflow = .parallel then
    [{ id := "phase-1", name := "병렬 실행",
       description := "독립 태스크 동시 실행", tasks := tasks }]
  else if workflow = .sequential ∨ workflow = .spec_driven then
    let investigation := tasks.filter (fun t =>
      t.category = .investigation ∨ t.category = .research ∨
        t.category = .decision)
    let phases1 : List Phase :=
      if investigation ≠ [] then
        [{ id := "phase-1", name := "분석 단계",
           description := "요구사항 분석 및 조사", tasks := investigation }]
      else []
    let implementation := tasks.filter (fun t =>
      t.category = .implementation ∨ t.category = .refactoring)
    let phases2 : List Phase :=
      if implementation ≠ [] then
        phases1 ++
          [{ id := "phase-" ++ toString (phases1.length + 1),
             name := "구현 단계", description := "핵심 기능 구현",
             tasks := implementation,
             dependencies := match phases1.getLast? with
               | some p => [p.id]
               | none => [] }]
      else phases1
    let testing := tasks.filter (fun t =>
      t.category = .testing ∨ t.category = .documentation)
    let phases3 : List Phase :=
      if testing ≠ [] then
        phases2 ++
          [{ id := "phase-" ++ toString (phases2.length + 1),
             name := "검증 단계", description := "테스트 및 문서화",
             tasks := testing,
             dependencies := match phases2.getLast? with
               | some p => [p.id]
               | none => [] }]
      else phases2
    let remaining := tasks.filter (fun t =>
      !(phases3.any (fun p => p.tasks.contains t)))
    let phases4 : List Phase :=
      if remaining ≠ [] then
        phases3 ++
          [{ id := "phase-" ++ toString (phases3.length + 1),
             name := "추가 작업", description := "기타 태스크",
             tasks := remaining }]
      else phases3
    if phases4 ≠ [] then phases4
    else [{ id := "phase-1", name := "실행", description := "태스크 실행",
            tasks := tasks }]
  else
    [{ id := "phase-1", name := "실행", description := "태스크 실행",
       tasks := tasks }]

/-- The per-task update of `_analyze_dependencies`: a task without an
explicit `blocked_by` is gated on the whole previous phase. -/
def wireTask (prev_ids : List String) (t : Task) : Task :=
  if t.blocked_by = [] then { t with blocked_by := prev_ids } else t

/-- The indexed loop of `_analyze_dependencies`, carrying the previous
phase's task ids (`none` at index 0). -/
def analyze_dependencies_aux : Option (List String) → List Phase → List Phase
  | _, [] => []
  | prev?, phase :: rest =>
    let phase' := match prev? with
      | some prev_ids =>
        if prev_ids ≠ [] then
          { phase with tasks := phase.tasks.map (wireTask prev_ids) }
        else phase
      | none => phase
    phase' :: analyze_dependencies_aux (some (phase'.tasks.map (·.id))) rest

/-- `SpecDrivenPlanner._analyze_dependencies` (returning the mutated
phase list). -/
def analyze_dependencies (phases : List Phase) : List Phase :=
  analyze_dependencies_aux none phases

end SpecDrivenPlanner

/-! ## Helper lemmas -/

namespace HybridRouter

theorem calculate_confidence_bounds (skills : List String)
    (c : ComplexityAnalysis) :
    1/2 ≤ calculate_confidence skills c ∧
      calculate_confidence skills c ≤ 9/10 := by
  unfold calculate_confidence
  split_ifs <;> constructor <;> norm_num [min_def]

theorem calculate_confidence_not_below_threshold (skills : List String)
    (c : ComplexityAnalysis) :
    ¬ calculate_confidence skills c < LLM_ROUTING_THRESHOLD := by
  have h := (calculate_confidence_bounds skills c).1
  unfold LLM_ROUTING_THRESHOLD
  exact not_lt.mpr h

/-- `route` always takes the keyword-decision branch: the guard of the
LLM fallback never fires. -/
theorem route_eq_keyword (matcher store_search : String → List String)
    (llm_client : Option LLMClient) (query : String) :
    route matcher store_search llm_client query =
      .ok { mode := (decide_mode query (analyze_complexity query)
              (if matcher query = [] then store_search query
               else matcher query)).1,
            skills := (if matcher query = [] then store_search query
               else matcher query),
            agents := (decide_mode query (analyze_complexity query)
              (if matcher query = [] then store_search query
               else matcher query)).2.1,
            reason := (decide_mode query (analyze_complexity query)
              (if matcher query = [] then store_search query
               else matcher query)).2.2,
            confidence := calculate_confidence
              (if matcher query = [] then store_search query
               else matcher query) (analyze_complexity query),
            complexity := some (analyze_complexity query) } := by
  unfold route route_fallback
  rw [if_neg]
  rintro ⟨h1, -⟩
  exact calculate_confidence_not_below_threshold _ _ h1

end HybridRouter

/-! ## Claims -/

open Haes HybridRouter EvolutionEngine HybridAISystem SpecDrivenPlanner

/-- **C1**: For every query routed without the LLM-fallback override, the
confidence of the `RoutingDecision` returned by `HybridRouter.route` lies
in `[0.5, 1.0]`; and a decision produced by a successful LLM fallback
(the factored step 5, `route_fallback`) has confidence exactly `0.8`. -/
theorem C1_confidence_bounds :
    (∀ (matcher store_search : String → List String)
        (llm : Option LLMClient) (q : String),
        ∃ d, route matcher store_search llm q = .ok d ∧
          1/2 ≤ d.confidence ∧ d.confidence ≤ 1) ∧
    (∀ (q : String) (f : LLMClient) (c : ComplexityAnalysis)
        (matched : List String) (mode : ExecutionMode)
        (agents : List String) (reason : String) (conf : ℚ)
        (r : LLMRouteReply) (m : ExecutionMode),
        conf < LLM_ROUTING_THRESHOLD →
        f q = .ret r →
        r.truthy = true →
        r.reason ≠ some "Parse error" →
        ExecutionMode.ofString (r.mode.getD "skill_only") = some m →
        ∃ d, route_fallback q (some f) c matched mode agents reason conf =
            .ok d ∧ d.confidence = 8/10) := by
  constructor
  · intro matcher store llm q
    refine ⟨_, route_eq_keyword matcher store llm q, ?_, ?_⟩
    · exact (calculate_confidence_bounds _ _).1
    · exact le_trans (calculate_confidence_bounds _ _).2 (by norm_num)
  · intro q f c matched mode agents reason conf r m hconf hf htr hre hm
    unfold route_fallback
    rw [if_pos ⟨hconf, rfl⟩]
    simp only [llm_route, hf]
    rw [if_pos ⟨htr, hre⟩, hm]
    exact ⟨_, rfl, rfl⟩

/-- Witness for C1: a concrete routed query, and a concrete successful
LLM fallback at confidence `0.3`. -/
theorem C1_confidence_bounds_witness :
    (∃ d, route (fun _ => []) (fun _ => []) none "q" = .ok d ∧
        1/2 ≤ d.confidence ∧ d.confidence ≤ 1) ∧
    ((3:ℚ)/10 < LLM_ROUTING_THRESHOLD) ∧
    (∃ d, route_fallback "q"
        (some (fun _ => .ret ⟨some "parallel", some ["s1"], some ["a1"],
          some "ok", false⟩))
        ⟨0, false, false, []⟩ ["kw"] .skill_only [] "r" (3/10) =
          .ok d ∧ d.confidence = 8/10) :=
  ⟨C1_confidence_bounds.1 (fun _ => []) (fun _ => []) none "q",
   by norm_num [LLM_ROUTING_THRESHOLD],
   C1_confidence_bounds.2 "q"
     (fun _ => .ret ⟨some "parallel", some ["s1"], some ["a1"],
       some "ok", false⟩)
     ⟨0, false, false, []⟩ ["kw"] .skill_only [] "r" (3/10)
     ⟨some "parallel", some ["s1"], some ["a1"], some "ok", false⟩
     .parallel
     (by norm_num [LLM_ROUTING_THRESHOLD]) rfl rfl (by decide) rfl⟩

/-- **C2**: the confidence computed by `_calculate_confidence` is always
in `[0.5, 0.9]`; since the LLM-fallback guard needs confidence strictly
below `0.5`, `route` never invokes the LLM fallback: its result is
independent of the configured LLM client and always the keyword-based
decision. -/
theorem C2_fallback_never_fires :
    (∀ (skills : List String) (c : ComplexityAnalysis),
        1/2 ≤ calculate_confidence skills c ∧
          calculate_confidence skills c ≤ 9/10) ∧
    (∀ (matcher store_search : String → List String)
        (llm : Option LLMClient) (q : String),
        route matcher store_search llm q =
          route matcher store_search none q ∧
        route matcher store_search llm q =
          .ok { mode := (decide_mode q (analyze_complexity q)
                  (if matcher q = [] then store_search q
                   else matcher q)).1,
                skills := (if matcher q = [] then store_search q
                   else matcher q),
                agents := (decide_mode q (analyze_complexity q)
                  (if matcher q = [] then store_search q
                   else matcher q)).2.1,
                reason := (decide_mode q (analyze_complexity q)
                  (if matcher q = [] then store_search q
                   else matcher q)).2.2,
                confidence := calculate_confidence
                  (if matcher q = [] then store_search q
                   else matcher q) (analyze_complexity q),
                complexity := some (analyze_complexity q) }) := by
  refine ⟨calculate_confidence_bounds, fun matcher store llm q => ⟨?_, ?_⟩⟩
  · rw [route_eq_keyword, route_eq_keyword]
  · exact route_eq_keyword matcher store llm q

/-- **C3 counterexample**: with computed confidence `0.3`, an LLM client
configured, and a syntactically valid structured reply whose `skills`
list is empty, the fallback keeps the keyword-matched skills instead of
replacing the documents with the LLM's (empty) answer. -/
theorem C3_counterexample :
    route_fallback "q"
        (some (fun _ => .ret ⟨some "parallel", some [], some ["llm-agent"],
          some "ok", false⟩))
        ⟨0, false, false, []⟩ ["kw-skill"] .skill_only [] "r" (3/10) =
      .ok { mode := .parallel, skills := ["kw-skill"],
            agents := ["llm-agent"], reason := "LLM 라우팅: ok",
            confidence := 8/10, complexity := some ⟨0, false, false, []⟩ } ∧
    (["kw-skill"] : List String) ≠ [] := by
  constructor
  · unfold route_fallback
    rw [if_pos ⟨by norm_num [LLM_ROUTING_THRESHOLD], rfl⟩]
    simp only [llm_route]
    rw [if_pos ⟨rfl, by decide⟩]
    rfl
  · decide

/-- **C3 (amended)**: when the confidence handed to the fallback step is
below `0.5` and an LLM collaborator is configured, `route_fallback`
invokes it; on a syntactically valid structured reply naming a known
mode it returns a decision with the LLM's mode, the LLM's personas when
present (keyword personas otherwise), the LLM's skills when non-empty
(keyword skills otherwise), and confidence exactly `0.8`; on an
unparseable reply (falsy dict or parse-error marker) or a raising client
it returns the keyword decision unchanged; a parsed reply naming an
unknown mode raises `ValueError`. -/
theorem C3_amended_fallback_behavior (q : String) (f : LLMClient)
    (c : ComplexityAnalysis) (matched : List String) (mode : ExecutionMode)
    (agents : List String) (reason : String) (conf : ℚ)
    (hconf : conf < LLM_ROUTING_THRESHOLD) :
    (∀ r m, f q = .ret r → r.truthy = true →
        r.reason ≠ some "Parse error" →
        ExecutionMode.ofString (r.mode.getD "skill_only") = some m →
        route_fallback q (some f) c matched mode agents reason conf =
          .ok { mode := m,
                skills := if r.skills.getD [] ≠ [] then r.skills.getD []
                          else matched,
                agents := r.agents.getD agents,
                reason := "LLM 라우팅: " ++ r.reason.getD "",
                confidence := 8/10, complexity := some c }) ∧
    (∀ r, f q = .ret r →
        (r.truthy = false ∨ r.reason = some "Parse error") →
        route_fallback q (some f) c matched mode agents reason conf =
          .ok { mode := mode, skills := matched, agents := agents,
                reason := reason, confidence := conf,
                complexity := some c }) ∧
    (f q = .raises →
        route_fallback q (some f) c matched mode agents reason conf =
          .ok { mode := mode, skills := matched, agents := agents,
                reason := reason, confidence := conf,
                complexity := some c }) ∧
    (∀ r, f q = .ret r → r.truthy = true →
        r.reason ≠ some "Parse error" →
        ExecutionMode.ofString (r.mode.getD "skill_only") = none →
        route_fallback q (some f) c matched mode agents reason conf =
          .error .valueError) := by
  refine ⟨?_, ?_, ?_, ?_⟩
  · intro r m hf htr hre hm
    unfold route_fallback
    rw [if_pos ⟨hconf, rfl⟩]
    simp only [llm_route, hf]
    rw [if_pos ⟨htr, hre⟩, hm]
  · intro r hf hbad
    unfold route_fallback
    rw [if_pos ⟨hconf, rfl⟩]
    simp only [llm_route, hf]
    rw [if_neg]
    rintro ⟨h1, h2⟩
    rcases hbad with hb | hb
    · rw [hb] at h1; exact Bool.false_ne_true h1
    · exact h2 hb
  · intro hf
    unfold route_fallback
    rw [if_pos ⟨hconf, rfl⟩]
    simp only [llm_route, hf]
  · intro r hf htr hre hm
    unfold route_fallback
    rw [if_pos ⟨hconf, rfl⟩]
    simp only [llm_route, hf]
    rw [if_pos ⟨htr, hre⟩, hm]

/-- Witness for the amended C3: a structured reply with a known mode and
no `agents` key, and a raising client, both at confidence `0.3`. -/
theorem C3_amended_fallback_behavior_witness :
    ((3:ℚ)/10 < LLM_ROUTING_THRESHOLD) ∧
    (route_fallback "q"
        (some (fun _ => .ret ⟨some "multi_agent", some ["ls"], none,
          some "ok", false⟩))
        ⟨0, false, false, []⟩ ["kw"] .skill_only [] "r" (3/10) =
      .ok { mode := .multi_agent,
            skills := if (some ["ls"] : Option (List String)).getD [] ≠ []
                      then (some ["ls"] : Option (List String)).getD []
                      else ["kw"],
            agents := (none : Option (List String)).getD [],
            reason := "LLM 라우팅: " ++ (some "ok" : Option String).getD "",
            confidence := 8/10, complexity := some ⟨0, false, false, []⟩ }) ∧
    (route_fallback "q" (some (fun _ => .raises))
        ⟨0, false, false, []⟩ ["kw"] .skill_only [] "r" (3/10) =
      .ok { mode := .skill_only, skills := ["kw"], agents := [],
            reason := "r", confidence := 3/10,
            complexity := some ⟨0, false, false, []⟩ }) :=
  ⟨by norm_num [LLM_ROUTING_THRESHOLD],
   (C3_amended_fallback_behavior "q"
      (fun _ => .ret ⟨some "multi_agent", some ["ls"], none, some "ok",
        false⟩)
      ⟨0, false, false, []⟩ ["kw"] .skill_only [] "r" (3/10)
      (by norm_num [LLM_ROUTING_THRESHOLD])).1
      ⟨some "multi_agent", some ["ls"], none, some "ok", false⟩
      .multi_agent rfl rfl (by decide) rfl,
   (C3_amended_fallback_behavior "q" (fun _ => .raises)
      ⟨0, false, false, []⟩ ["kw"] .skill_only [] "r" (3/10)
      (by norm_num [LLM_ROUTING_THRESHOLD])).2.2.1 rfl⟩

/-! Helper lemmas for the complexity analyzer. -/

theorem analyze_complexity_score_le_one (q : String) :
    (analyze_complexity q).score ≤ 1 := by
  simp only [analyze_complexity]
  exact min_le_right _ _

set_option maxHeartbeats 800000 in
theorem analyze_complexity_score_nonneg (q : String) :
    0 ≤ (analyze_complexity q).score := by
  simp only [analyze_complexity]
  set t0 : ℚ := (List.map (fun x : String × Nat => (x.2 : ℚ) * (15/100))
      (COMPLEXITY_INDICATORS.map (fun ck => (ck.1, ck.2.countP
        (fun kw => containsSub (pyLower q) kw))))).sum with ht0
  have h0 : 0 ≤ t0 := by
    rw [ht0]
    apply List.sum_nonneg
    intro x hx
    obtain ⟨y, -, rfl⟩ := List.mem_map.mp hx
    positivity
  refine le_min ?_ (by norm_num)
  split_ifs <;>
    first
      | exact le_min (by linarith) (by norm_num)
      | linarith

/-- Concrete evaluation of `_analyze_complexity` at the spec's
Scenario-A query. -/
theorem analyze_complexity_lora :
    analyze_complexity "LoRA가 뭐야?" =
      { score := 0, is_parallel := false, is_collaborative := false,
        indicators := [("implementation", 0), ("parallel", 0),
                       ("collaboration", 0), ("design", 0)] } := by
  have h1 : matchesSimplePattern (pyLower "LoRA가 뭐야?") = true := by decide
  have h2 : COMPLEXITY_INDICATORS.map
      (fun ck => (ck.1, ck.2.countP
        (fun kw => containsSub (pyLower "LoRA가 뭐야?") kw))) =
      [("implementation", 0), ("parallel", 0),
       ("collaboration", 0), ("design", 0)] := by decide
  have h3 : countOcc (pyLower "LoRA가 뭐야?") "하고" = 0 := by decide
  have h4 : countOcc (pyLower "LoRA가 뭐야?") "그리고" = 0 := by decide
  have h5 : countOcc (pyLower "LoRA가 뭐야?") " and " = 0 := by decide
  have h6 : (["검토", "review", "확인", "validate", "후에", "다음에",
      "then"]).countP
      (fun kw => containsSub (pyLower "LoRA가 뭐야?") kw) = 0 := by decide
  simp only [analyze_complexity]
  rw [h1, h2, h3, h4, h5, h6]
  norm_num

/-- **C10**: whenever a simple-question pattern matches and neither
`is_parallel` nor `is_collaborative` holds, the complexity score is at
most `0.25`; the final score is always in `[0, 1]`; and for the query
`"LoRA가 뭐야?"` the score is `≤ 0.25` and the router's mode decision is
`SKILL_ONLY`. -/
theorem C10_simple_query_score :
    (∀ q : String,
        matchesSimplePattern (pyLower q) = true →
        (analyze_complexity q).is_parallel = false →
        (analyze_complexity q).is_collaborative = false →
        (analyze_complexity q).score ≤ 25/100) ∧
    (∀ q : String, 0 ≤ (analyze_complexity q).score ∧
        (analyze_complexity q).score ≤ 1) ∧
    ((analyze_complexity "LoRA가 뭐야?").score ≤ 25/100) ∧
    (∀ (matcher store_search : String → List String)
        (llm : Option LLMClient),
        ∃ d, route matcher store_search llm "LoRA가 뭐야?" = .ok d ∧
          d.mode = .skill_only) := by
  refine ⟨?_, ?_, ?_, ?_⟩
  · intro q h1 h2 h3
    simp only [analyze_complexity] at h2 h3 ⊢
    rw [h1, h2, h3]
    simp only [Bool.not_false, Bool.and_self, Bool.true_and, Bool.and_true,
      if_true]
    exact le_trans (min_le_left _ _) (min_le_right _ _)
  · exact fun q => ⟨analyze_complexity_score_nonneg q,
      analyze_complexity_score_le_one q⟩
  · rw [analyze_complexity_lora]
    norm_num
  · intro matcher store llm
    refine ⟨_, route_eq_keyword _ _ _ _, ?_⟩
    rw [analyze_complexity_lora]
    simp only [decide_mode]
    norm_num

/-- Witness for C10: the simple-question bound applied at
`"LoRA가 뭐야?"`. -/
theorem C10_simple_query_score_witness :
    matchesSimplePattern (pyLower "LoRA가 뭐야?") = true ∧
    (analyze_complexity "LoRA가 뭐야?").is_parallel = false ∧
    (analyze_complexity "LoRA가 뭐야?").is_collaborative = false ∧
    (analyze_complexity "LoRA가 뭐야?").score ≤ 25/100 :=
  ⟨by decide, by decide, by decide,
   C10_simple_query_score.1 "LoRA가 뭐야?" (by decide) (by decide)
     (by decide)⟩

/-- **C4**: the chat routing pipeline consults the Evolution Engine's
hint before complexity analysis, keyword matching, mode decision,
confidence computation, and the LLM fallback; whenever the hint's
confidence exceeds `0.8` (and its stored mode resolves), it
short-circuits all those steps — the result is independent of the
matcher, the store and the LLM client — and returns a decision built
directly from the hint's mode, documents, and personas. -/
theorem C4_hint_short_circuit (evo : EngineState)
    (matcher store_search : String → List String) (llm : Option LLMClient)
    (q : String) (hints : RoutingHints) (m : ExecutionMode)
    (hh : get_routing_hints evo q = hints)
    (hconf : hints.confidence > 8/10)
    (hm : resolve_hint_mode hints.suggested_mode = some m) :
    chat_routing evo matcher store_search llm q =
      .ok { mode := m, skills := hints.suggested_skills,
            agents := hints.suggested_agents,
            reason := "학습된 패턴 사용 (신뢰도: " ++
              fmt2 hints.confidence ++ ")",
            confidence := hints.confidence, complexity := none } := by
  unfold chat_routing
  rw [hh, if_pos hconf, hm]

/-- A learned pattern with a perfect success rate, matched exactly by
the query keyword `lora`. -/
def patW : Pattern :=
  { pattern_key := "03-fine-tuning", skills := ["03-fine-tuning"],
    mode := "skill_only", agents := [], query_keywords := ["lora"],
    sample_count := 5, success_rate := 1, success_scores := [5, 5, 5, 5, 5],
    learned_at := "t" }

/-- An engine state holding exactly `patW`. -/
def evoW : EngineState :=
  { feedback_db := [], routing_stats := [], learned_patterns := [patW],
    query_patterns := [], auto_save := true, dirty := false }

/-- The hint `evoW` produces for the query `lora`. -/
def hintsW : RoutingHints :=
  { confidence := 95/100, suggested_skills := ["03-fine-tuning"],
    suggested_mode := some "skill_only", suggested_agents := [],
    matched_pattern := some "03-fine-tuning" }

theorem get_routing_hints_evoW :
    get_routing_hints evoW "lora" = hintsW := by
  have hkw : extract_keywords "lora" = ["lora"] := by decide
  have hI : setInter ["lora"] ["lora"] = ["lora"] := by decide
  have hU : setUnion ["lora"] ["lora"] = ["lora"] := by decide
  unfold get_routing_hints evoW patW hintsW
  rw [if_neg (by decide), hkw]
  simp only [List.foldl_cons, List.foldl_nil, hI, hU]
  norm_num [min_def]

/-- Witness for C4: the hint short-circuit applied at the concrete state
`evoW` and query `lora`. -/
theorem C4_hint_short_circuit_witness :
    (get_routing_hints evoW "lora" = hintsW) ∧
    hintsW.confidence > 8/10 ∧
    (resolve_hint_mode hintsW.suggested_mode =
      some ExecutionMode.skill_only) ∧
    chat_routing evoW (fun _ => []) (fun _ => []) none "lora" =
      .ok { mode := .skill_only, skills := hintsW.suggested_skills,
            agents := hintsW.suggested_agents,
            reason := "학습된 패턴 사용 (신뢰도: " ++
              fmt2 hintsW.confidence ++ ")",
            confidence := hintsW.confidence, complexity := none } :=
  ⟨get_routing_hints_evoW, by norm_num [hintsW], rfl,
   C4_hint_short_circuit evoW (fun _ => []) (fun _ => []) none "lora"
     hintsW .skill_only get_routing_hints_evoW (by norm_num [hintsW]) rfl⟩

/-- `_learn_success_pattern` only touches the pattern tables:
`feedback_db` is preserved. -/
theorem learn_feedback_db (r : FeedbackRecord) (t : String)
    (s : EngineState) :
    (learn_success_pattern r t s).feedback_db = s.feedback_db := by
  simp only [learn_success_pattern, create_learned_pattern]
  split_ifs <;> simp

/-- `_learn_success_pattern` preserves `routing_stats`. -/
theorem learn_routing_stats (r : FeedbackRecord) (t : String)
    (s : EngineState) :
    (learn_success_pattern r t s).routing_stats = s.routing_stats := by
  simp only [learn_success_pattern, create_learned_pattern]
  split_ifs <;> simp

/-- `_learn_success_pattern` preserves the auto-save flag. -/
theorem learn_auto_save (r : FeedbackRecord) (t : String)
    (s : EngineState) :
    (learn_success_pattern r t s).auto_save = s.auto_save := by
  simp only [learn_success_pattern, create_learned_pattern]
  split_ifs <;> simp

/-- `_learn_success_pattern` preserves the dirty flag. -/
theorem learn_dirty (r : FeedbackRecord) (t : String) (s : EngineState) :
    (learn_success_pattern r t s).dirty = s.dirty := by
  simp only [learn_success_pattern, create_learned_pattern]
  split_ifs <;> simp

/-- **C5 counterexample**: a feedback at score 1 on a fresh engine with
auto-save enabled returns the review suggestion, but the early return of
`record_feedback` skips both the dirty mark and the auto-save. -/
theorem C5_counterexample :
    (record_feedback ⟨[], [], [], [], true, false⟩
        ⟨"q", "skill_only", ["s"], []⟩ "bad" 1 "t").2.2 = false ∧
    (record_feedback ⟨[], [], [], [], true, false⟩
        ⟨"q", "skill_only", ["s"], []⟩ "bad" 1 "t").1.dirty = false ∧
    (record_feedback ⟨[], [], [], [], true, false⟩
        ⟨"q", "skill_only", ["s"], []⟩ "bad" 1 "t").2.1.isSome = true := by
  refine ⟨?_, ?_, ?_⟩ <;> decide

/-- **C5 (amended)**: for a score in `1..5`, `record_feedback` appends
the feedback record and returns a review suggestion iff `score ≤ 2`;
when `score ≥ 3` it marks the state dirty and, with auto-save enabled,
invokes `save` (whose success clears the dirty flag again); when
`score ≤ 2` the early return skips both the dirty mark and the
auto-save. -/
theorem C5_amended_feedback_effects (s : EngineState) (r : ExecutionResult)
    (fb : String) (score : Int) (t : String)
    (h : 1 ≤ score ∧ score ≤ 5) :
    ((record_feedback s r fb score t).1.feedback_db =
      s.feedback_db ++
        [{ timestamp := t, query := r.query, mode := r.mode,
           skills_used := r.skills_used, agents_used := r.agents_used,
           feedback := fb, score := score }]) ∧
    ((record_feedback s r fb score t).2.1.isSome ↔ score ≤ 2) ∧
    (2 < score →
      (record_feedback s r fb score t).2.2 = s.auto_save ∧
      (s.auto_save = false →
        (record_feedback s r fb score t).1.dirty = true) ∧
      (s.auto_save = true →
        (record_feedback s r fb score t).1.dirty = false)) ∧
    (score ≤ 2 →
      (record_feedback s r fb score t).2.2 = false ∧
      (record_feedback s r fb score t).1.dirty = s.dirty) := by
  clear h
  simp only [record_feedback]
  by_cases h4 : score ≥ SUCCESS_SCORE
  · rw [if_pos h4]
    by_cases h2 : score ≤ 2
    · exfalso
      simp only [SUCCESS_SCORE] at h4
      omega
    · rw [if_neg h2]
      simp only [learn_feedback_db, learn_dirty, learn_auto_save]
      by_cases ha : s.auto_save = true
      · rw [if_pos (by simpa [learn_auto_save] using ha)]
        refine ⟨by simp [save, learn_feedback_db], by simp [h2],
          fun _ => ⟨by simp [ha], ?_, ?_⟩, fun hc => absurd hc h2⟩
        · intro hfalse; rw [hfalse] at ha; simp at ha
        · intro _; simp [save]
      · rw [if_neg (by simpa [learn_auto_save] using ha)]
        refine ⟨by simp [learn_feedback_db], by simp [h2],
          fun _ => ⟨?_, ?_, ?_⟩, fun hc => absurd hc h2⟩
        · simp only [Bool.not_eq_true] at ha; simp [ha]
        · intro _; simp
        · intro htrue; exact absurd htrue ha
  · rw [if_neg h4]
    by_cases h2 : score ≤ 2
    · rw [if_pos h2]
      exact ⟨by simp, by simp [h2], fun hc => absurd h2 (not_le.mpr hc),
        fun _ => ⟨rfl, by simp⟩⟩
    · rw [if_neg h2]
      by_cases ha : s.auto_save = true
      · rw [if_pos (by simpa using ha)]
        refine ⟨by simp [save], by simp [h2],
          fun _ => ⟨by simp [ha], ?_, ?_⟩, fun hc => absurd hc h2⟩
        · intro hfalse; rw [hfalse] at ha; simp at ha
        · intro _; simp [save]
      · rw [if_neg (by simpa using ha)]
        refine ⟨by simp, by simp [h2], fun _ => ⟨?_, ?_, ?_⟩,
          fun hc => absurd hc h2⟩
        · simp only [Bool.not_eq_true] at ha; simp [ha]
        · intro _; simp
        · intro htrue; exact absurd htrue ha

/-- Witness for the amended C5: a concrete score-4 feedback with
auto-save enabled. -/
theorem C5_amended_feedback_effects_witness :
    ((1:Int) ≤ 4 ∧ (4:Int) ≤ 5) ∧
    ((record_feedback ⟨[], [], [], [], true, false⟩
        ⟨"q", "skill_only", ["s"], []⟩ "good" 4 "t").1.feedback_db =
      ([] : List FeedbackRecord) ++
        [{ timestamp := "t", query := "q", mode := "skill_only",
           skills_used := ["s"], agents_used := [],
           feedback := "good", score := 4 }]) :=
  ⟨by decide,
   (C5_amended_feedback_effects ⟨[], [], [], [], true, false⟩
      ⟨"q", "skill_only", ["s"], []⟩ "good" 4 "t" (by decide)).1⟩

/-- Looking up the updated key after `updateAssoc` yields the update of
the previous value (or of the default when the key was absent). -/
theorem lookup_updateAssoc_self {α : Type} (l : List (String × α))
    (k : String) (f : α → α) (d : α) :
    (updateAssoc l k f d).lookup k = some (f ((l.lookup k).getD d)) := by
  induction l with
  | nil => simp [updateAssoc, List.lookup]
  | cons p rest ih =>
    unfold updateAssoc
    by_cases hp : p.1 = k
    · rw [if_pos hp]
      simp [List.lookup, hp]
    · rw [if_neg hp]
      have hk : (k == p.1) = false := by
        simp [beq_eq_false_iff_ne]
        exact fun h => hp h.symm
      simp [List.lookup, hk, ih]

/-- The pending sample that a score-5 feedback on `r` buffers. -/
def score5_sample (r : ExecutionResult) : Sample :=
  { query := r.query, keywords := extract_keywords r.query, score := 5,
    mode := r.mode, agents := r.agents_used }

/-- `_learn_success_pattern` on a record whose key has no learned
pattern yet and whose pending buffer stays below the threshold: the
learned patterns are untouched and the buffer grows by this sample. -/
theorem learn_buffer_step (rec : FeedbackRecord) (t : String)
    (s : EngineState) (sk : List String)
    (hsk : rec.skills_used = sk)
    (hnopat : s.learned_patterns.any
      (·.pattern_key = String.intercalate "|" (pySorted sk)) = false)
    (hlen : ((s.query_patterns.lookup
        (String.intercalate "|" (pySorted sk))).getD []).length + 1 <
      LEARNING_THRESHOLD) :
    (learn_success_pattern rec t s).learned_patterns =
      s.learned_patterns ∧
    ((learn_success_pattern rec t s).query_patterns.lookup
        (String.intercalate "|" (pySorted sk))).getD [] =
      ((s.query_patterns.lookup
          (String.intercalate "|" (pySorted sk))).getD []) ++
        [{ query := rec.query, keywords := extract_keywords rec.query,
           score := rec.score, mode := rec.mode,
           agents := rec.agents_used }] := by
  simp only [learn_success_pattern, hsk]
  rw [if_neg (by simp [hnopat])]
  rw [if_neg (by
    rw [lookup_updateAssoc_self]
    simp only [Option.getD_some, List.length_append, List.length_cons,
      List.length_nil]
    omega)]
  refine ⟨rfl, ?_⟩
  rw [lookup_updateAssoc_self]
  simp

/-- A score-5 feedback reaches `_learn_success_pattern`, and neither the
early return nor the auto-save path touches the pattern tables
afterwards. -/
theorem record_feedback_score5_state (s : EngineState)
    (r : ExecutionResult) (fb t : String) :
    (record_feedback s r fb 5 t).1.learned_patterns =
      (learn_success_pattern
        { timestamp := t, query := r.query, mode := r.mode,
          skills_used := r.skills_used, agents_used := r.agents_used,
          feedback := fb, score := 5 } t
        { feedback_db := s.feedback_db ++
            [{ timestamp := t, query := r.query, mode := r.mode,
               skills_used := r.skills_used, agents_used := r.agents_used,
               feedback := fb, score := 5 }],
          routing_stats := update_routing_stats
            { timestamp := t, query := r.query, mode := r.mode,
              skills_used := r.skills_used, agents_used := r.agents_used,
              feedback := fb, score := 5 } s.routing_stats,
          learned_patterns := s.learned_patterns,
          query_patterns := s.query_patterns,
          auto_save := s.auto_save, dirty := s.dirty }).learned_patterns ∧
    (record_feedback s r fb 5 t).1.query_patterns =
      (learn_success_pattern
        { timestamp := t, query := r.query, mode := r.mode,
          skills_used := r.skills_used, agents_used := r.agents_used,
          feedback := fb, score := 5 } t
        { feedback_db := s.feedback_db ++
            [{ timestamp := t, query := r.query, mode := r.mode,
               skills_used := r.skills_used, agents_used := r.agents_used,
               feedback := fb, score := 5 }],
          routing_stats := update_routing_stats
            { timestamp := t, query := r.query, mode := r.mode,
              skills_used := r.skills_used, agents_used := r.agents_used,
              feedback := fb, score := 5 } s.routing_stats,
          learned_patterns := s.learned_patterns,
          query_patterns := s.query_patterns,
          auto_save := s.auto_save, dirty := s.dirty }).query_patterns := by
  simp only [record_feedback]
  rw [if_pos (show (5:Int) ≥ SUCCESS_SCORE by decide),
    if_neg (show ¬((5:Int) ≤ 2) by decide)]
  split_ifs with ha <;> constructor <;> simp [save]

/-- The pending sample that `_learn_success_pattern` buffers for a
feedback record. -/
def pending_sample (rec : FeedbackRecord) : Sample :=
  { query := rec.query, keywords := extract_keywords rec.query,
    score := rec.score, mode := rec.mode, agents := rec.agents_used }

/-- The aggregate success rate `_create_learned_pattern` computes over a
buffered sample list. -/
def success_rate_of (samples : List Sample) : ℚ :=
  (((samples.map (·.score)).filter (· ≥ SUCCESS_SCORE)).length : ℚ) /
    ((samples.map (·.score)).length : ℚ)

/-- `_learn_success_pattern` on a record whose key reaches the learning
threshold: the pattern is materialized iff the buffered samples'
aggregate success rate is at least `0.8`. -/
theorem learn_create_step (rec : FeedbackRecord) (t : String)
    (s : EngineState) (sk : List String)
    (hsk : rec.skills_used = sk)
    (hnopat : s.learned_patterns.any
      (·.pattern_key = String.intercalate "|" (pySorted sk)) = false)
    (hlen : ((s.query_patterns.lookup
        (String.intercalate "|" (pySorted sk))).getD []).length + 1 ≥
      LEARNING_THRESHOLD) :
    (8/10 ≤ success_rate_of
        (((s.query_patterns.lookup
            (String.intercalate "|" (pySorted sk))).getD []) ++
          [pending_sample rec]) →
      ∃ pat, (learn_success_pattern rec t s).learned_patterns =
          s.learned_patterns ++ [pat] ∧
        pat.pattern_key = String.intercalate "|" (pySorted sk) ∧
        pat.success_rate = success_rate_of
          (((s.query_patterns.lookup
              (String.intercalate "|" (pySorted sk))).getD []) ++
            [pending_sample rec])) ∧
    (¬ (8/10 ≤ success_rate_of
        (((s.query_patterns.lookup
            (String.intercalate "|" (pySorted sk))).getD []) ++
          [pending_sample rec])) →
      (learn_success_pattern rec t s).learned_patterns =
        s.learned_patterns) := by
  simp only [learn_success_pattern, hsk]
  rw [if_neg (by simp [hnopat])]
  rw [if_pos (by
    rw [lookup_updateAssoc_self]
    simp only [Option.getD_some, List.length_append, List.length_cons,
      List.length_nil]
    omega)]
  simp only [create_learned_pattern]
  rw [lookup_updateAssoc_self]
  simp only [Option.getD_some]
  constructor
  · intro hrate
    split_ifs with hc
    · exact ⟨_, rfl, rfl, rfl⟩
    · exact absurd hrate hc
  · intro hrate
    split_ifs with hc
    · exact absurd hc hrate
    · rfl

/-- Packaging of `record_feedback_score5_state` with the intermediate
record and state abstracted. -/
theorem record_feedback_score5_state_exists (s : EngineState)
    (r : ExecutionResult) (fb t : String) :
    ∃ s2 rec,
      (record_feedback s r fb 5 t).1.learned_patterns =
        (learn_success_pattern rec t s2).learned_patterns ∧
      (record_feedback s r fb 5 t).1.query_patterns =
        (learn_success_pattern rec t s2).query_patterns ∧
      rec.skills_used = r.skills_used ∧ rec.query = r.query ∧
      rec.score = 5 ∧ rec.mode = r.mode ∧
      rec.agents_used = r.agents_used ∧
      s2.learned_patterns = s.learned_patterns ∧
      s2.query_patterns = s.query_patterns :=
  ⟨_, _, (record_feedback_score5_state s r fb t).1,
    (record_feedback_score5_state s r fb t).2,
    rfl, rfl, rfl, rfl, rfl, rfl, rfl⟩

/-- A score-5 feedback below the learning threshold: no pattern is
created and the key's pending buffer grows by the sample. -/
theorem record_feedback_score5_buffer (s : EngineState)
    (r : ExecutionResult) (fb t : String) (sk : List String)
    (hsk : r.skills_used = sk)
    (hnopat : s.learned_patterns.any
      (·.pattern_key = String.intercalate "|" (pySorted sk)) = false)
    (hlen : ((s.query_patterns.lookup
        (String.intercalate "|" (pySorted sk))).getD []).length + 1 <
      LEARNING_THRESHOLD) :
    (record_feedback s r fb 5 t).1.learned_patterns =
      s.learned_patterns ∧
    ((record_feedback s r fb 5 t).1.query_patterns.lookup
        (String.intercalate "|" (pySorted sk))).getD [] =
      ((s.query_patterns.lookup
          (String.intercalate "|" (pySorted sk))).getD []) ++
        [score5_sample r] := by
  obtain ⟨s2, rec, hL, hQ, hsk', hq, hsc, hm, hag, hlp, hqp⟩ :=
    record_feedback_score5_state_exists s r fb t
  rw [hL, hQ]
  have h1 := learn_buffer_step rec t s2 sk (by rw [hsk', hsk])
    (by rw [hlp]; exact hnopat) (by rw [hqp]; exact hlen)
  refine ⟨by rw [h1.1, hlp], ?_⟩
  rw [h1.2, hqp]
  simp [score5_sample, hq, hsc, hm, hag]

/-- A score-5 feedback reaching the learning threshold: the pattern for
the key is appended iff the buffered samples' aggregate success rate is
at least `0.8`. -/
theorem record_feedback_score5_create (s : EngineState)
    (r : ExecutionResult) (fb t : String) (sk : List String)
    (hsk : r.skills_used = sk)
    (hnopat : s.learned_patterns.any
      (·.pattern_key = String.intercalate "|" (pySorted sk)) = false)
    (hlen : ((s.query_patterns.lookup
        (String.intercalate "|" (pySorted sk))).getD []).length + 1 ≥
      LEARNING_THRESHOLD) :
    (8/10 ≤ success_rate_of
        (((s.query_patterns.lookup
            (String.intercalate "|" (pySorted sk))).getD []) ++
          [score5_sample r]) →
      ∃ pat, (record_feedback s r fb 5 t).1.learned_patterns =
          s.learned_patterns ++ [pat] ∧
        pat.pattern_key = String.intercalate "|" (pySorted sk) ∧
        pat.success_rate = success_rate_of
          (((s.query_patterns.lookup
              (String.intercalate "|" (pySorted sk))).getD []) ++
            [score5_sample r])) ∧
    (¬ (8/10 ≤ success_rate_of
        (((s.query_patterns.lookup
            (String.intercalate "|" (pySorted sk))).getD []) ++
          [score5_sample r])) →
      (record_feedback s r fb 5 t).1.learned_patterns =
        s.learned_patterns) := by
  obtain ⟨s2, rec, hL, hQ, hsk', hq, hsc, hm, hag, hlp, hqp⟩ :=
    record_feedback_score5_state_exists s r fb t
  have hsample : pending_sample rec = score5_sample r := by
    simp [pending_sample, score5_sample, hq, hsc, hm, hag]
  have h1 := learn_create_step rec t s2 sk (by rw [hsk', hsk])
    (by rw [hlp]; exact hnopat) (by rw [hqp]; exact hlen)
  rw [hsample, hqp] at h1
  constructor
  · intro hrate
    obtain ⟨pat, hp1, hp2, hp3⟩ := h1.1 hrate
    exact ⟨pat, by rw [hL, hp1, hlp], hp2, hp3⟩
  · intro hrate
    rw [hL, h1.2 hrate, hlp]

/-- A sequence of score-5 feedbacks folded through `record_feedback`. -/
def feed_score5 (fb t : String) (s : EngineState)
    (rs : List ExecutionResult) : EngineState :=
  rs.foldl (fun st r => (record_feedback st r fb 5 t).1) s

/-- **C6**: starting from an engine with no learned pattern and no
pending samples for a document set's key, four score-5 feedbacks for
that document set never create a pattern; the fifth creates one if and
only if the aggregate success rate across the five buffered samples is
at least `0.8` (here always, since every buffered sample scored 5). -/
theorem C6_pattern_learning_gate (s0 : EngineState) (sk : List String)
    (r1 r2 r3 r4 r5 : ExecutionResult) (fb t : String)
    (h1 : r1.skills_used = sk) (h2 : r2.skills_used = sk)
    (h3 : r3.skills_used = sk) (h4 : r4.skills_used = sk)
    (h5 : r5.skills_used = sk)
    (hnopat : s0.learned_patterns.any
      (·.pattern_key = String.intercalate "|" (pySorted sk)) = false)
    (hnobuf : (s0.query_patterns.lookup
      (String.intercalate "|" (pySorted sk))).getD [] = []) :
    ((feed_score5 fb t s0 [r1, r2, r3, r4]).learned_patterns.any
       (·.pattern_key = String.intercalate "|" (pySorted sk)) = false) ∧
    (((feed_score5 fb t s0 [r1, r2, r3, r4, r5]).learned_patterns.any
       (·.pattern_key = String.intercalate "|" (pySorted sk)) = true) ↔
      8/10 ≤ success_rate_of
        [score5_sample r1, score5_sample r2, score5_sample r3,
         score5_sample r4, score5_sample r5]) ∧
    success_rate_of
        [score5_sample r1, score5_sample r2, score5_sample r3,
         score5_sample r4, score5_sample r5] = 1 := by
  have hrate1 : success_rate_of
      [score5_sample r1, score5_sample r2, score5_sample r3,
       score5_sample r4, score5_sample r5] = 1 := by
    norm_num [success_rate_of, score5_sample, SUCCESS_SCORE, List.filter]
  have S1 := record_feedback_score5_buffer s0 r1 fb t sk h1 hnopat
    (by rw [hnobuf]; simp [LEARNING_THRESHOLD])
  have hnopat1 := S1.1 ▸ hnopat
  have hbuf1 : (((record_feedback s0 r1 fb 5 t).1).query_patterns.lookup
      (String.intercalate "|" (pySorted sk))).getD [] =
      [score5_sample r1] := by
    rw [S1.2, hnobuf]; simp
  have S2 := record_feedback_score5_buffer _ r2 fb t sk h2 hnopat1
    (by rw [hbuf1]; simp [LEARNING_THRESHOLD])
  have hnopat2 := S2.1 ▸ hnopat1
  have hbuf2 : ((((record_feedback (record_feedback s0 r1 fb 5 t).1
      r2 fb 5 t).1).query_patterns.lookup
      (String.intercalate "|" (pySorted sk))).getD []) =
      [score5_sample r1, score5_sample r2] := by
    rw [S2.2, hbuf1]; rfl
  have S3 := record_feedback_score5_buffer _ r3 fb t sk h3 hnopat2
    (by rw [hbuf2]; simp [LEARNING_THRESHOLD])
  have hnopat3 := S3.1 ▸ hnopat2
  have hbuf3 : ((((record_feedback (record_feedback (record_feedback s0
      r1 fb 5 t).1 r2 fb 5 t).1 r3 fb 5 t).1).query_patterns.lookup
      (String.intercalate "|" (pySorted sk))).getD []) =
      [score5_sample r1, score5_sample r2, score5_sample r3] := by
    rw [S3.2, hbuf2]; rfl
  have S4 := record_feedback_score5_buffer _ r4 fb t sk h4 hnopat3
    (by rw [hbuf3]; simp [LEARNING_THRESHOLD])
  have hnopat4 := S4.1 ▸ hnopat3
  have hbuf4 : ((((record_feedback (record_feedback (record_feedback
      (record_feedback s0 r1 fb 5 t).1 r2 fb 5 t).1 r3 fb 5 t).1
      r4 fb 5 t).1).query_patterns.lookup
      (String.intercalate "|" (pySorted sk))).getD []) =
      [score5_sample r1, score5_sample r2, score5_sample r3,
       score5_sample r4] := by
    rw [S4.2, hbuf3]; rfl
  have S5 := record_feedback_score5_create _ r5 fb t sk h5 hnopat4
    (by rw [hbuf4]; simp [LEARNING_THRESHOLD])
  rw [hbuf4] at S5
  have hrate5 : (8:ℚ)/10 ≤ success_rate_of
      [score5_sample r1, score5_sample r2, score5_sample r3,
       score5_sample r4, score5_sample r5] := by
    rw [hrate1]; norm_num
  obtain ⟨pat, hp1, hp2, -⟩ := S5.1 (by simpa using hrate5)
  have hany5 : ((feed_score5 fb t s0 [r1, r2, r3, r4, r5]).learned_patterns.any
      (·.pattern_key = String.intercalate "|" (pySorted sk)) = true) := by
    simp only [feed_score5, List.foldl_cons, List.foldl_nil]
    rw [hp1, List.any_append]
    simp [hnopat4, hp2]
  refine ⟨?_, iff_of_true hany5 hrate5, hrate1⟩
  simpa only [feed_score5, List.foldl_cons, List.foldl_nil] using hnopat4

/-- Witness for C6: five concrete score-5 feedbacks on a fresh engine
for the document set `["03-fine-tuning"]`. -/
theorem C6_pattern_learning_gate_witness :
    ((⟨"q", "skill_only", ["03-fine-tuning"], []⟩ :
        ExecutionResult).skills_used = ["03-fine-tuning"]) ∧
    ((⟨[], [], [], [], false, false⟩ : EngineState).learned_patterns.any
      (·.pattern_key =
        String.intercalate "|" (pySorted ["03-fine-tuning"])) = false) ∧
    (((⟨[], [], [], [], false, false⟩ :
        EngineState).query_patterns.lookup
      (String.intercalate "|" (pySorted ["03-fine-tuning"]))).getD [] =
      []) ∧
    ((feed_score5 "fb" "t" ⟨[], [], [], [], false, false⟩
        [⟨"q", "skill_only", ["03-fine-tuning"], []⟩,
         ⟨"q", "skill_only", ["03-fine-tuning"], []⟩,
         ⟨"q", "skill_only", ["03-fine-tuning"], []⟩,
         ⟨"q", "skill_only", ["03-fine-tuning"], []⟩]).learned_patterns.any
       (·.pattern_key =
         String.intercalate "|" (pySorted ["03-fine-tuning"])) = false) :=
  ⟨rfl, by decide, by decide,
   (C6_pattern_learning_gate ⟨[], [], [], [], false, false⟩
      ["03-fine-tuning"]
      ⟨"q", "skill_only", ["03-fine-tuning"], []⟩
      ⟨"q", "skill_only", ["03-fine-tuning"], []⟩
      ⟨"q", "skill_only", ["03-fine-tuning"], []⟩
      ⟨"q", "skill_only", ["03-fine-tuning"], []⟩
      ⟨"q", "skill_only", ["03-fine-tuning"], []⟩
      "fb" "t" rfl rfl rfl rfl rfl (by decide) (by decide)).1⟩

/-- Is a persisted pattern entry deserializable (a dict)? -/
def rawPatternOk : RawPattern → Bool
  | .ok _ => true
  | .bad => false

/-- Is a persisted sample entry deserializable (a dict)? -/
def rawSampleOk : RawSample → Bool
  | .ok _ => true
  | .bad => false

/-- A persisted record deserializes without raising iff every pattern
and every pending sample entry is a dict. -/
def rawDictClean (d : RawDict) : Bool :=
  (d.learned_patterns.getD []).all rawPatternOk &&
  (d.query_patterns.getD []).all (fun kp => kp.2.all rawSampleOk)

theorem deserPatterns_flag (l : List RawPattern) :
    (deserPatterns l).2 = !(l.all rawPatternOk) := by
  induction l with
  | nil => rfl
  | cons p rest ih =>
    cases p with
    | ok q => simp [deserPatterns, rawPatternOk, ih]
    | bad => simp [deserPatterns, rawPatternOk]

theorem deserSamples_flag (l : List RawSample) :
    (deserSamples l).2 = !(l.all rawSampleOk) := by
  induction l with
  | nil => rfl
  | cons p rest ih =>
    cases p with
    | ok q => simp [deserSamples, rawSampleOk, ih]
    | bad => simp [deserSamples, rawSampleOk]

theorem deserQueryPatterns_flag (l : List (String × List RawSample)) :
    (deserQueryPatterns l).2 =
      !(l.all (fun kp => kp.2.all rawSampleOk)) := by
  induction l with
  | nil => rfl
  | cons kp rest ih =>
    simp only [deserQueryPatterns]
    by_cases hs : (deserSamples kp.2).2 = true
    · rw [if_pos hs]
      rw [deserSamples_flag] at hs
      simp only [Bool.not_eq_true'] at hs
      simp [hs]
    · rw [if_neg hs]
      rw [deserSamples_flag] at hs
      simp only [Bool.not_eq_true, Bool.not_eq_false] at hs
      simp [hs, ih]

/-- **C7 counterexample**: a parseable persisted dict holding one
feedback record and one non-deserializable pattern entry makes `load`
return `false` — yet the in-memory feedback log has been overwritten,
so the state is not left as it was. -/
theorem C7_counterexample :
    (load (.dict ⟨some "1.0", some "t",
        some [⟨"t", "q", "skill_only", [], [], "fb", 5⟩], some [],
        some [.bad], some []⟩) ⟨[], [], [], [], true, false⟩).2 = false ∧
    (load (.dict ⟨some "1.0", some "t",
        some [⟨"t", "q", "skill_only", [], [], "fb", 5⟩], some [],
        some [.bad], some []⟩) ⟨[], [], [], [], true, false⟩).1.feedback_db =
      [⟨"t", "q", "skill_only", [], [], "fb", 5⟩] ∧
    (⟨[], [], [], [], true, false⟩ : EngineState).feedback_db = [] := by
  refine ⟨?_, ?_, rfl⟩ <;> decide

/-- **C7 (amended)**: `load` returns `false` and raises nothing when the
persisted file is missing, unparseable, or not a dict at top level, and
in those cases leaves the in-memory state untouched; on a parsed dict it
succeeds exactly when every persisted pattern and pending-sample entry
deserializes, and it overwrites the feedback log and per-document stats
with the file's contents even when a later entry fails mid-way. -/
theorem C7_amended_load_behavior (s : EngineState) :
    load .missing s = (s, false) ∧
    load .unparseable s = (s, false) ∧
    load .notDict s = (s, false) ∧
    (∀ d : RawDict,
      (load (.dict d) s).1.feedback_db = d.feedback_db.getD [] ∧
      (load (.dict d) s).1.routing_stats = d.routing_stats.getD [] ∧
      (load (.dict d) s).2 = rawDictClean d) := by
  refine ⟨rfl, rfl, rfl, fun d => ?_⟩
  by_cases hp : (deserPatterns (d.learned_patterns.getD [])).2 = true
  · have hall : (d.learned_patterns.getD []).all rawPatternOk = false := by
      rw [deserPatterns_flag] at hp
      simpa using hp
    simp [load, deserialize_state, hp, rawDictClean, hall]
  · have hall : (d.learned_patterns.getD []).all rawPatternOk = true := by
      rw [deserPatterns_flag] at hp
      simpa using hp
    by_cases hq : (deserQueryPatterns (d.query_patterns.getD [])).2 = true
    · have hall2 : (d.query_patterns.getD []).all
          (fun kp => kp.2.all rawSampleOk) = false := by
        rw [deserQueryPatterns_flag] at hq
        simpa using hq
      simp [load, deserialize_state, hp, hq, rawDictClean, hall, hall2]
    · have hall2 : (d.query_patterns.getD []).all
          (fun kp => kp.2.all rawSampleOk) = true := by
        rw [deserQueryPatterns_flag] at hq
        simpa using hq
      simp [load, deserialize_state, hp, hq, rawDictClean, hall, hall2]

/-- Restoring serialized patterns whose keyword sets are duplicate-free
is the identity (the list→set conversion re-dedups). -/
theorem deserPatterns_roundtrip (l : List Pattern)
    (h : ∀ p ∈ l, p.query_keywords.Nodup) :
    deserPatterns (l.map .ok) = (l, false) := by
  induction l with
  | nil => rfl
  | cons p rest ih =>
    simp only [List.map_cons, deserPatterns,
      ih (fun q hq => h q (List.mem_cons_of_mem _ hq))]
    have hp := h p (List.mem_cons_self _ _)
    simp [pySet, List.dedup_eq_self.mpr hp]

/-- Restoring serialized samples whose keyword sets are duplicate-free
is the identity. -/
theorem deserSamples_roundtrip (l : List Sample)
    (h : ∀ smp ∈ l, smp.keywords.Nodup) :
    deserSamples (l.map .ok) = (l, false) := by
  induction l with
  | nil => rfl
  | cons p rest ih =>
    simp only [List.map_cons, deserSamples,
      ih (fun q hq => h q (List.mem_cons_of_mem _ hq))]
    have hp := h p (List.mem_cons_self _ _)
    simp [pySet, List.dedup_eq_self.mpr hp]

/-- Restoring the serialized pending-pattern table is the identity when
all sample keyword sets are duplicate-free. -/
theorem deserQueryPatterns_roundtrip (l : List (String × List Sample))
    (h : ∀ kp ∈ l, ∀ smp ∈ kp.2, smp.keywords.Nodup) :
    deserQueryPatterns (l.map (fun kp => (kp.1, kp.2.map .ok))) =
      (l, false) := by
  induction l with
  | nil => rfl
  | cons kp rest ih =>
    simp only [List.map_cons, deserQueryPatterns,
      deserSamples_roundtrip kp.2 (h kp (List.mem_cons_self _ _)),
      ih (fun q hq => h q (List.mem_cons_of_mem _ hq))]
    simp

/-- **C8**: for every engine state (whose set-typed keyword fields are
duplicate-free, as every state the engine builds is), `save` to a path,
then `clear`, then `restore_from_backup` from that path succeeds and
restores the feedback log, the per-document stats, the learned patterns
with their keyword sets, and the pending-pattern buffers. -/
theorem C8_save_clear_restore_roundtrip (s : EngineState) (now : String)
    (hwf1 : ∀ p ∈ s.learned_patterns, p.query_keywords.Nodup)
    (hwf2 : ∀ kp ∈ s.query_patterns, ∀ smp ∈ kp.2, smp.keywords.Nodup) :
    (restore_from_backup (save now s).1 (clear (save now s).2)).2 = true ∧
    (restore_from_backup (save now s).1
      (clear (save now s).2)).1.feedback_db = s.feedback_db ∧
    (restore_from_backup (save now s).1
      (clear (save now s).2)).1.routing_stats = s.routing_stats ∧
    (restore_from_backup (save now s).1
      (clear (save now s).2)).1.learned_patterns = s.learned_patterns ∧
    (restore_from_backup (save now s).1
      (clear (save now s).2)).1.query_patterns = s.query_patterns := by
  simp only [restore_from_backup, save, serialize_state, clear, load,
    deserialize_state, Option.getD_some]
  rw [deserPatterns_roundtrip s.learned_patterns hwf1,
    deserQueryPatterns_roundtrip s.query_patterns hwf2]
  simp

/-- Witness for C8: the round trip on a concrete populated state. -/
theorem C8_save_clear_restore_roundtrip_witness :
    (∀ p ∈ (⟨[⟨"t", "q", "skill_only", ["s"], [], "fb", 5⟩],
        [("s", ⟨1, 1, [5], [("skill_only", 1)]⟩)], [patW],
        [("k", [⟨"q", ["lora"], 5, "skill_only", []⟩])], true,
        false⟩ : EngineState).learned_patterns,
      p.query_keywords.Nodup) ∧
    (∀ kp ∈ (⟨[⟨"t", "q", "skill_only", ["s"], [], "fb", 5⟩],
        [("s", ⟨1, 1, [5], [("skill_only", 1)]⟩)], [patW],
        [("k", [⟨"q", ["lora"], 5, "skill_only", []⟩])], true,
        false⟩ : EngineState).query_patterns,
      ∀ smp ∈ kp.2, smp.keywords.Nodup) ∧
    (restore_from_backup
      (save "now" (⟨[⟨"t", "q", "skill_only", ["s"], [], "fb", 5⟩],
        [("s", ⟨1, 1, [5], [("skill_only", 1)]⟩)], [patW],
        [("k", [⟨"q", ["lora"], 5, "skill_only", []⟩])], true,
        false⟩ : EngineState)).1
      (clear (save "now" (⟨[⟨"t", "q", "skill_only", ["s"], [], "fb", 5⟩],
        [("s", ⟨1, 1, [5], [("skill_only", 1)]⟩)], [patW],
        [("k", [⟨"q", ["lora"], 5, "skill_only", []⟩])], true,
        false⟩ : EngineState)).2)).2 = true :=
  ⟨by decide, by decide,
   (C8_save_clear_restore_roundtrip
      (⟨[⟨"t", "q", "skill_only", ["s"], [], "fb", 5⟩],
        [("s", ⟨1, 1, [5], [("skill_only", 1)]⟩)], [patW],
        [("k", [⟨"q", ["lora"], 5, "skill_only", []⟩])], true,
        false⟩ : EngineState) "now" (by decide) (by decide)).1⟩

/-- Wiring never changes a task's id. -/
theorem wireTask_id (ids : List String) (t : Task) :
    (wireTask ids t).id = t.id := by
  unfold wireTask
  split_ifs <;> rfl

/-- The task ids of a wired phase are those of the unwired phase. -/
theorem map_wireTask_id (ids : List String) (l : List Task) :
    (l.map (wireTask ids)).map (·.id) = l.map (·.id) := by
  rw [List.map_map]
  exact List.map_congr_left (fun t _ => wireTask_id ids t)

/-- When every task belongs to some phase, the leftover filter of
`_create_phases` is empty. -/
theorem remaining_filter_empty (tasks : List Task) (ps : List Phase)
    (hcover : ∀ t ∈ tasks, ∃ p ∈ ps, t ∈ p.tasks) :
    tasks.filter (fun t => !(ps.any (fun p => p.tasks.contains t))) =
      [] := by
  rw [List.filter_eq_nil_iff]
  intro t ht
  obtain ⟨p, hp, htp⟩ := hcover t ht
  simp only [Bool.not_eq_true', Bool.not_eq_false, List.any_eq_true]
  exact ⟨p, hp, by simpa using htp⟩

/-- The analysis phase of `_create_phases` for `spec_driven`. -/
def analysisPhase (tasks : List Task) : Phase :=
  { id := "phase-1", name := "분석 단계",
    description := "요구사항 분석 및 조사",
    tasks := tasks.filter (fun t => t.category = .investigation ∨
      t.category = .research ∨ t.category = .decision),
    dependencies := [] }

/-- The implementation phase of `_create_phases` for `spec_driven`
(when the analysis phase is non-empty). -/
def implementationPhase (tasks : List Task) : Phase :=
  { id := "phase-2", name := "구현 단계", description := "핵심 기능 구현",
    tasks := tasks.filter (fun t => t.category = .implementation ∨
      t.category = .refactoring),
    dependencies := ["phase-1"] }

/-- The verification phase of `_create_phases` for `spec_driven` (when
the earlier phases are non-empty). -/
def verificationPhase (tasks : List Task) : Phase :=
  { id := "phase-3", name := "검증 단계", description := "테스트 및 문서화",
    tasks := tasks.filter (fun t => t.category = .testing ∨
      t.category = .documentation),
    dependencies := ["phase-2"] }

/-- `_create_phases` on `spec_driven` input spanning all three category
buckets yields exactly the three bucket phases, in order. -/
theorem create_phases_spec_driven (tasks : List Task)
    (hinv : tasks.filter (fun t => t.category = .investigation ∨
      t.category = .research ∨ t.category = .decision) ≠ [])
    (himpl : tasks.filter (fun t => t.category = .implementation ∨
      t.category = .refactoring) ≠ [])
    (htest : tasks.filter (fun t => t.category = .testing ∨
      t.category = .documentation) ≠ []) :
    create_phases tasks .spec_driven =
      [analysisPhase tasks, implementationPhase tasks,
       verificationPhase tasks] := by
  have hcover : ∀ t ∈ tasks, ∃ p ∈ [analysisPhase tasks,
      implementationPhase tasks, verificationPhase tasks], t ∈ p.tasks := by
    intro t ht
    cases hc : t.category
    case investigation =>
      exact ⟨analysisPhase tasks, by simp,
        List.mem_filter.mpr ⟨ht, by simp [hc]⟩⟩
    case research =>
      exact ⟨analysisPhase tasks, by simp,
        List.mem_filter.mpr ⟨ht, by simp [hc]⟩⟩
    case decision =>
      exact ⟨analysisPhase tasks, by simp,
        List.mem_filter.mpr ⟨ht, by simp [hc]⟩⟩
    case implementation =>
      exact ⟨implementationPhase tasks, by simp,
        List.mem_filter.mpr ⟨ht, by simp [hc]⟩⟩
    case refactoring =>
      exact ⟨implementationPhase tasks, by simp,
        List.mem_filter.mpr ⟨ht, by simp [hc]⟩⟩
    case testing =>
      exact ⟨verificationPhase tasks, by simp,
        List.mem_filter.mpr ⟨ht, by simp [hc]⟩⟩
    case documentation =>
      exact ⟨verificationPhase tasks, by simp,
        List.mem_filter.mpr ⟨ht, by simp [hc]⟩⟩
  simp only [create_phases, or_true, if_true]
  rw [if_pos hinv, if_pos himpl, if_pos htest]
  split_ifs with hA hB hC hD <;>
    first
      | exact absurd hA (by decide)
      | exact ‹False›.elim
      | exact absurd (remaining_filter_empty tasks [analysisPhase tasks,
          implementationPhase tasks, verificationPhase tasks] hcover)
          (by assumption)
      | exact absurd (List.cons_ne_nil _ _) (by assumption)
      | (simp only [List.length_append, List.length_cons, List.length_nil, Nat.reduceAdd]; rfl)

/-- `_create_phases` on the `parallel` workflow is a single phase holding
all tasks. -/
theorem create_phases_parallel (ts : List Task) :
    create_phases ts .parallel =
      [{ id := "phase-1", name := "병렬 실행",
         description := "독립 태스크 동시 실행", tasks := ts,
         dependencies := [] }] := rfl

/-- `_analyze_dependencies` on three phases whose first two have tasks:
each later phase's tasks are wired on the previous phase's task ids. -/
theorem analyze_dependencies_three (p1 p2 p3 : Phase)
    (h1 : p1.tasks ≠ []) (h2 : p2.tasks ≠ []) :
    analyze_dependencies [p1, p2, p3] =
      [p1,
       ({ p2 with tasks := p2.tasks.map (wireTask (p1.tasks.map (·.id))) }),
       ({ p3 with tasks := p3.tasks.map (wireTask (p2.tasks.map (·.id))) })] := by
  have hm1 : p1.tasks.map (·.id) ≠ [] := by simpa using h1
  have hm2 : p2.tasks.map (·.id) ≠ [] := by simpa using h2
  simp only [analyze_dependencies, analyze_dependencies_aux]
  rw [if_pos hm1, map_wireTask_id, if_pos hm2]

/-- C9: for every task list, `_create_phases` on the `parallel` workflow
returns exactly one phase holding all tasks; on `spec_driven` input whose
tasks span all three category buckets it returns exactly the three bucket
phases in order, and after `_analyze_dependencies` each later phase's
tasks are wired (those without an explicit `blocked_by` become blocked by
every task id of the previous phase). -/
theorem C9_planner_phases (tasks : List Task)
    (hinv : tasks.filter (fun t => t.category = .investigation ∨
      t.category = .research ∨ t.category = .decision) ≠ [])
    (himpl : tasks.filter (fun t => t.category = .implementation ∨
      t.category = .refactoring) ≠ [])
    (htest : tasks.filter (fun t => t.category = .testing ∨
      t.category = .documentation) ≠ []) :
    (∀ ts : List Task, create_phases ts .parallel =
      [{ id := "phase-1", name := "병렬 실행",
         description := "독립 태스크 동시 실행", tasks := ts,
         dependencies := [] }]) ∧
    analyze_dependencies (create_phases tasks .spec_driven) =
      [analysisPhase tasks,
       ({ implementationPhase tasks with tasks :=
          ((implementationPhase tasks).tasks.map
            (wireTask ((analysisPhase tasks).tasks.map (·.id)))) }),
       ({ verificationPhase tasks with tasks :=
          ((verificationPhase tasks).tasks.map
            (wireTask ((implementationPhase tasks).tasks.map (·.id)))) })] ∧
    (∀ (ids : List String) (t : Task), t.blocked_by = [] →
      (wireTask ids t).blocked_by = ids) := by
  refine ⟨create_phases_parallel, ?_, ?_⟩
  · rw [create_phases_spec_driven tasks hinv himpl htest]
    exact analyze_dependencies_three _ _ _ hinv himpl
  · intro ids t h
    unfold wireTask
    rw [if_pos h]

def tasksW : List Task :=
  [{ id := "t1", title := "조사", description := "요구사항 조사",
     category := .investigation },
   { id := "t2", title := "구현", description := "핵심 기능 구현",
     category := .implementation },
   { id := "t3", title := "테스트", description := "기능 테스트",
     category := .testing }]

/-- Witness for C9 at a concrete three-task input spanning the buckets. -/
theorem C9_planner_phases_witness :
    (tasksW.filter (fun t => t.category = .investigation ∨
      t.category = .research ∨ t.category = .decision) ≠ []) ∧
    (tasksW.filter (fun t => t.category = .implementation ∨
      t.category = .refactoring) ≠ []) ∧
    (tasksW.filter (fun t => t.category = .testing ∨
      t.category = .documentation) ≠ []) ∧
    create_phases tasksW .parallel =
      [{ id := "phase-1", name := "병렬 실행",
         description := "독립 태스크 동시 실행", tasks := tasksW,
         dependencies := [] }] ∧
    analyze_dependencies (create_phases tasksW .spec_driven) =
      [analysisPhase tasksW,
       ({ implementationPhase tasksW with tasks :=
          ((implementationPhase tasksW).tasks.map
            (wireTask ((analysisPhase tasksW).tasks.map (·.id)))) }),
       ({ verificationPhase tasksW with tasks :=
          ((verificationPhase tasksW).tasks.map
            (wireTask ((implementationPhase tasksW).tasks.map (·.id)))) })] :=
  ⟨by decide, by decide, by decide,
   (C9_planner_phases tasksW (by decide) (by decide) (by decide)).1 tasksW,
   (C9_planner_phases tasksW (by decide) (by decide) (by decide)).2.1⟩
